import Mathlib

/-!
Verification of the `azsql` connection-manager class (`azsql_package/azsql.py`)
against its natural-language specification.

The Python class `AzSql` wraps token-authenticated access to a cloud SQL
database.  We shallow-embed its four methods:

* `config_sql`     — token acquisition and driver-attribute encoding;
* `create_cursor`  — connection acquisition with bounded retry;
* `perform_db_operation`        — single-step executor (errors become data);
* `perform_atomic_db_operation` — transactional executor (errors propagate).

Machine integers are modelled as `Nat` with explicit bounds where the Python
`struct.pack('=i', ·)` layout matters.  The external world (identity provider,
ODBC driver) is modelled by an oracle structure `DbEnv` that fixes the outcome
of each driver call; each embedded method returns its result together with a
trace of the observable driver/logging events it performed, in order.
-/

namespace AzSql

/-! ### Token encoder (`config_sql`, lines 56–59)

`tokenb = bytes(token, 'UTF-8')` is a byte list.
`exptoken = b''.join(bytes({i}) + bytes(1) for i in tokenb)` interleaves a zero
byte after every token byte (`bytes({i})` is the single byte `i`, `bytes(1)`
is one zero byte).
`tokenstruct = struct.pack('=i', len(exptoken)) + exptoken` prefixes the
4-byte little-endian length. -/

/-- `b''.join(bytes({i}) + bytes(1) for i in tokenb)`: every byte of the
UTF-8 token followed by a single zero byte. -/
def interleaveZeros : List Nat → List Nat
  | [] => []
  | b :: bs => b :: 0 :: interleaveZeros bs

/-- `struct.pack('=i', n)`: 4 bytes, little-endian (native order on the
supported platforms), defined for `n` in the signed 32-bit range. -/
def packLE4 (n : Nat) : List Nat :=
  [n % 256, n / 256 % 256, n / 65536 % 256, n / 16777216 % 256]

/-- Little-endian decoding of the first four bytes of a buffer
(default byte 0 when out of range). -/
def decodeLE4 (bs : List Nat) : Nat :=
  bs.getD 0 0 + 256 * bs.getD 1 0 + 65536 * bs.getD 2 0 + 16777216 * bs.getD 3 0

/-- `tokenstruct = struct.pack('=i', len(exptoken)) + exptoken`
(line 59 of `azsql.py`). -/
def tokenstruct (tokenb : List Nat) : List Nat :=
  packLE4 (interleaveZeros tokenb).length ++ interleaveZeros tokenb

theorem interleaveZeros_length (l : List Nat) :
    (interleaveZeros l).length = 2 * l.length := by
  induction l with
  | nil => rfl
  | cons b bs ih => simp [interleaveZeros, ih]; omega

theorem interleaveZeros_getD_even (l : List Nat) (i : Nat) :
    (interleaveZeros l).getD (2 * i) 0 = l.getD i 0 := by
  induction l generalizing i with
  | nil => simp [interleaveZeros]
  | cons b bs ih =>
    cases i with
    | zero => rfl
    | succ j =>
      have h2 : 2 * (j + 1) = (2 * j) + 1 + 1 := by omega
      simpa [interleaveZeros, h2, List.getD_cons_succ] using ih j

theorem interleaveZeros_getD_odd (l : List Nat) (i : Nat) (hi : i < l.length) :
    (interleaveZeros l).getD (2 * i + 1) 0 = 0 := by
  induction l generalizing i with
  | nil => simp at hi
  | cons b bs ih =>
    cases i with
    | zero => rfl
    | succ j =>
      have h2 : 2 * (j + 1) + 1 = (2 * j + 1) + 1 + 1 := by omega
      have hj : j < bs.length := by simpa using Nat.lt_of_succ_lt_succ hi
      simpa [interleaveZeros, h2, List.getD_cons_succ] using ih j hj

theorem decodeLE4_packLE4 (n : Nat) (h : n < 4294967296) :
    decodeLE4 (packLE4 n) = n := by
  simp [decodeLE4, packLE4]
  omega

theorem packLE4_length (n : Nat) : (packLE4 n).length = 4 := rfl

theorem decodeLE4_append (a b : List Nat) (ha : a.length = 4) :
    decodeLE4 (a ++ b) = decodeLE4 a := by
  unfold decodeLE4
  rw [List.getD_append a b 0 0 (by omega), List.getD_append a b 0 1 (by omega),
    List.getD_append a b 0 2 (by omega), List.getD_append a b 0 3 (by omega)]

/-- C1.  For every ASCII token byte string of length N (with `2*N` in the
signed 32-bit range accepted by `struct.pack('=i', ·)`), the buffer built by
`config_sql` has length `4 + 2*N`, its first 4 bytes decode little-endian to
`2*N`, byte `4+2*i` is the i-th token byte, and byte `4+2*i+1` is zero, for
all `i < N`. -/
theorem c1_token_encoding (tokenb : List Nat)
    (h : 2 * tokenb.length < 2147483648) :
    (tokenstruct tokenb).length = 4 + 2 * tokenb.length ∧
    decodeLE4 (tokenstruct tokenb) = 2 * tokenb.length ∧
    ∀ i, i < tokenb.length →
      (tokenstruct tokenb).getD (4 + 2 * i) 0 = tokenb.getD i 0 ∧
      (tokenstruct tokenb).getD (4 + 2 * i + 1) 0 = 0 := by
  have hlen := interleaveZeros_length tokenb
  refine ⟨?_, ?_, ?_⟩
  · simp [tokenstruct, packLE4, hlen]; omega
  · rw [tokenstruct, decodeLE4_append _ _ (packLE4_length _), hlen,
      decodeLE4_packLE4 _ (by omega)]
  · intro i hi
    have h4 : (packLE4 (interleaveZeros tokenb).length).length = 4 :=
      packLE4_length _
    constructor
    · rw [tokenstruct, List.getD_append_right _ _ _ _ (by omega), h4]
      have : 4 + 2 * i - 4 = 2 * i := by omega
      rw [this, interleaveZeros_getD_even]
    · rw [tokenstruct, List.getD_append_right _ _ _ _ (by omega), h4]
      have : 4 + 2 * i + 1 - 4 = 2 * i + 1 := by omega
      rw [this, interleaveZeros_getD_odd _ _ hi]

/-- Witness for C1 at the concrete token byte string "hi" = `[104, 105]`. -/
theorem c1_token_encoding_witness :
    2 * ([104, 105] : List Nat).length < 2147483648 ∧
    ((tokenstruct [104, 105]).length = 4 + 2 * ([104, 105] : List Nat).length ∧
     decodeLE4 (tokenstruct [104, 105]) = 2 * ([104, 105] : List Nat).length ∧
     ∀ i, i < ([104, 105] : List Nat).length →
       (tokenstruct [104, 105]).getD (4 + 2 * i) 0 =
         ([104, 105] : List Nat).getD i 0 ∧
       (tokenstruct [104, 105]).getD (4 + 2 * i + 1) 0 = 0) :=
  ⟨by decide, c1_token_encoding [104, 105] (by decide)⟩

/-! ### Python value model for the `data_values` dispatch

Both executors dispatch on `data_values` (lines 107–113 and 153–159):
`if data_values:` (truthiness), then
`if isinstance(data_values, list) and all(isinstance(i, tuple) for i in data_values)`
selects `cursor.executemany`, else `cursor.execute(query, data_values)`;
a falsy value runs `cursor.execute(query)` with no parameters. -/

inductive PyVal where
  | none
  | int (n : Int)
  | str (s : String)
  | list (xs : List PyVal)
  | tuple (xs : List PyVal)

/-- Python truthiness of the modelled values. -/
def truthy : PyVal → Bool
  | PyVal.none => false
  | PyVal.int n => decide (n ≠ 0)
  | PyVal.str s => decide (s ≠ "")
  | PyVal.list xs => !xs.isEmpty
  | PyVal.tuple xs => !xs.isEmpty

/-- `isinstance(v, tuple)`. -/
def isTuple : PyVal → Bool
  | PyVal.tuple _ => true
  | _ => false

/-- `isinstance(v, list) and all(isinstance(i, tuple) for i in v)` —
the code's batched-execution test. -/
def isListAllTuples : PyVal → Bool
  | PyVal.list xs => xs.all isTuple
  | _ => false

/-- Which cursor call the executor makes for given `data_values`. -/
inductive ExecKind where
  | many
  | single
  | noParams
  deriving DecidableEq

/-- The dispatch both executors implement (source lines 107–113, 153–159). -/
def dispatch (dv : PyVal) : ExecKind :=
  if truthy dv then
    if isListAllTuples dv then ExecKind.many else ExecKind.single
  else ExecKind.noParams

/-- Test following the SPEC's words (refinement comparison for the dispatch):
a "sequence of parameter tuples" — Python sequences are lists and tuples. -/
def isSeqOfParamTuples : PyVal → Bool
  | PyVal.list xs => xs.all isTuple
  | PyVal.tuple xs => xs.all isTuple
  | _ => false

/-- The dispatch as the spec words it: a sequence of parameter tuples
triggers batched execution, any other truthy value single-row execution. -/
def dispatchSpec (dv : PyVal) : ExecKind :=
  if truthy dv then
    if isSeqOfParamTuples dv then ExecKind.many else ExecKind.single
  else ExecKind.noParams

/-! ### Observable events and the driver/identity-provider oracle -/

/-- Observable driver and logging events, in the order the code performs
them.  Connections and cursors are identified by `Nat` handles. -/
inductive Event where
  | tokenRequest
  | logError
  | logWarning
  | connectAttempt (i : Nat)
  | sleep (seconds : Nat)
  | executeMany
  | execute
  | executeNoParams
  | fetch
  | commit (conn : Nat)
  | rollback (conn : Nat)
  | closeCursor (cursor : Nat)
  | closeConn (conn : Nat)
  deriving DecidableEq

/-- Python exceptions relevant to the class.  `opError timeout msg` is a
`pyodbc.OperationalError`; `timeout` records whether `msg` contains
"Login timeout expired" (the code's classification test, line 86). -/
inductive Exc where
  | opError (timeout : Bool) (msg : String)
  | typeError (msg : String)
  | queryError (msg : String)
  | attributeError (msg : String)
  deriving DecidableEq

/-- `str(e)` — the message carried by an exception. -/
def Exc.msg : Exc → String
  | Exc.opError _ m => m
  | Exc.typeError m => m
  | Exc.queryError m => m
  | Exc.attributeError m => m

/-- Outcome of one `pyodbc.connect` attempt, fixed by the oracle. -/
inductive ConnOutcome where
  | ok
  | fail (timeout : Bool) (msg : String)
  deriving DecidableEq

/-- Oracle for the external world: identity provider, the driver's reaction
to each connect attempt (indexed by attempt number), and the outcomes and
payloads of the cursor/connection calls. -/
structure DbEnv where
  server : String
  database : String
  token : List Nat
  tokenOk : Bool
  connOutcome : Nat → ConnOutcome
  freshConn : Nat
  freshCursor : Nat
  execOutcome : Except String Unit
  fetchOutcome : Except String Unit
  commitOutcome : Except String Unit
  rows : List (List Int)
  cols : List String

def isOkE {ε α : Type} : Except ε α → Bool
  | Except.ok _ => true
  | Except.error _ => false

/-! ### `config_sql` (lines 45–67) and `create_cursor` (lines 71–93) -/

def SQL_COPT_SS_ACCESS_TOKEN : Nat := 1256

/-- The connection string built at lines 61–64. -/
def connStringFor (server database : String) : String :=
  "DRIVER=\x7bODBC Driver 18 for SQL Server\x7d;SERVER=" ++ server ++
    ";DATABASE=" ++ database ++ ";ENCRYPT=NO"

/-- `config_sql`: requests a token from the identity provider; on success
returns `(connString, tokenstruct, SQL_COPT_SS_ACCESS_TOKEN)`; on failure the
exception is caught and logged and the method falls off the end, returning
`None` (modelled as `Option.none`). -/
def config_sql (env : DbEnv) : Option (String × List Nat × Nat) × List Event :=
  if env.tokenOk then
    (some (connStringFor env.server env.database, tokenstruct env.token,
        SQL_COPT_SS_ACCESS_TOKEN),
      [Event.tokenRequest])
  else
    (none, [Event.tokenRequest, Event.logError])

/-- The retry loop of `create_cursor` (lines 80–93): `n` attempts remain,
the next attempt has index `i`.  A timeout-classified operational failure
logs a warning and sleeps `delay` before the next iteration; any other
operational failure is logged and re-raised; the exhausted loop logs and
raises `OperationalError("Maximum retry attempts reached")`. -/
def attemptLoop (env : DbEnv) (delay : Nat) : Nat → Nat → Except Exc (Nat × Nat) × List Event
  | 0, _ =>
      (Except.error (Exc.opError false "Maximum retry attempts reached"),
        [Event.logError])
  | n + 1, i =>
      match env.connOutcome i with
      | ConnOutcome.ok =>
          (Except.ok (env.freshConn, env.freshCursor), [Event.connectAttempt i])
      | ConnOutcome.fail true _ =>
          let r := attemptLoop env delay n (i + 1)
          (r.1, Event.connectAttempt i :: Event.logWarning :: Event.sleep delay :: r.2)
      | ConnOutcome.fail false m =>
          (Except.error (Exc.opError false m), [Event.connectAttempt i, Event.logError])

/-- `create_cursor` (lines 71–93): unpacks the tuple returned by
`config_sql` — a `TypeError` when `config_sql` returned `None` — then runs
the bounded retry loop.  Note that `config_sql` is called once, before the
loop. -/
def create_cursor (env : DbEnv) (maxRetries delay : Nat) :
    Except Exc (Nat × Nat) × List Event :=
  match config_sql env with
  | (none, t) =>
      (Except.error (Exc.typeError "cannot unpack non-iterable NoneType object"), t)
  | (some _, t) =>
      let r := attemptLoop env delay maxRetries 0
      (r.1, t ++ r.2)

/-! ### Cursor/connection primitive calls -/

/-- The cursor call the dispatch selects, as a trace event. -/
def execEvent (dv : PyVal) : Event :=
  match dispatch dv with
  | ExecKind.many => Event.executeMany
  | ExecKind.single => Event.execute
  | ExecKind.noParams => Event.executeNoParams

/-- `cursor.executemany` / `cursor.execute` with the dispatch applied. -/
def doExec (env : DbEnv) (dv : PyVal) : Except Exc Unit × List Event :=
  match env.execOutcome with
  | Except.ok _ => (Except.ok (), [execEvent dv])
  | Except.error m => (Except.error (Exc.queryError m), [execEvent dv])

/-- `cursor.fetchall()` followed by reading `cursor.description`. -/
def doFetch (env : DbEnv) : Except Exc Unit × List Event :=
  match env.fetchOutcome with
  | Except.ok _ => (Except.ok (), [Event.fetch])
  | Except.error m => (Except.error (Exc.queryError m), [Event.fetch])

/-- `conn.commit()`. -/
def doCommit (env : DbEnv) (c : Nat) : Except Exc Unit × List Event :=
  match env.commitOutcome with
  | Except.ok _ => (Except.ok (), [Event.commit c])
  | Except.error m => (Except.error (Exc.queryError m), [Event.commit c])

/-! ### `perform_db_operation` (lines 96–131) -/

/-- Return value of the single-step executor: `(result, column_names)`,
the literal `("Success", "Operation successful")`, or the error marker
`("Error", msg)`.  The executor never raises, so no `Except` wraps this. -/
inductive DbResult where
  | dataPair (rows : List (List Int)) (cols : List String)
  | successPair
  | errorPair (msg : String)
  deriving DecidableEq

/-- `perform_db_operation` (lines 96–131): opens its own connection through
`create_cursor()` (defaults `max_retries=3, delay=5`), dispatches on
`data_values`, optionally fetches, commits per the flags, converts any
exception into the `("Error", msg)` marker, and always runs the `finally`
block, which closes cursor and connection when they were bound. -/
def perform_db_operation (env : DbEnv) (dv : PyVal)
    (has_return needs_commit : Bool) : DbResult × List Event :=
  match create_cursor env 3 5 with
  | (Except.error e, t) =>
      (DbResult.errorPair ("Error performing query: " ++ e.msg),
        t ++ [Event.logError])
  | (Except.ok (c, k), t) =>
      let closes := [Event.closeCursor k, Event.closeConn c]
      match doExec env dv with
      | (Except.error e, te) =>
          (DbResult.errorPair ("Error performing query: " ++ e.msg),
            t ++ te ++ [Event.logError] ++ closes)
      | (Except.ok _, te) =>
          if has_return then
            match doFetch env with
            | (Except.error e, tf) =>
                (DbResult.errorPair ("Error performing query: " ++ e.msg),
                  t ++ te ++ tf ++ [Event.logError] ++ closes)
            | (Except.ok _, tf) =>
                if needs_commit then
                  match doCommit env c with
                  | (Except.error e, tc) =>
                      (DbResult.errorPair ("Error performing query: " ++ e.msg),
                        t ++ te ++ tf ++ tc ++ [Event.logError] ++ closes)
                  | (Except.ok _, tc) =>
                      (DbResult.dataPair env.rows env.cols,
                        t ++ te ++ tf ++ tc ++ closes)
                else
                  (DbResult.dataPair env.rows env.cols, t ++ te ++ tf ++ closes)
          else
            match doCommit env c with
            | (Except.error e, tc) =>
                (DbResult.errorPair ("Error performing query: " ++ e.msg),
                  t ++ te ++ tc ++ [Event.logError] ++ closes)
            | (Except.ok _, tc) =>
                (DbResult.successPair, t ++ te ++ tc ++ closes)

/-! ### `perform_atomic_db_operation` (lines 134–189) -/

/-- Return value of the transactional executor: four shapes selected by
`has_return` × whether BOTH close flags are false (lines 162–171). -/
inductive AtomicResult where
  | rowsPair (rows : List (List Int)) (cols : List String)
  | rowsQuad (rows : List (List Int)) (cols : List String) (conn cursor : Nat)
  | success
  | successTriple (conn cursor : Nat)
  deriving DecidableEq

/-- The body of the `try` block after `conn`/`cursor` are bound to `c`/`k`:
dispatch and execute, optionally fetch, and build the return shape
(lines 152–171).  `t0` is the trace accumulated by acquisition. -/
def atomicTryExec (env : DbEnv) (dv : PyVal)
    (has_return close_cursor close_conn : Bool) (c k : Nat) (t0 : List Event) :
    Except Exc AtomicResult × Option Nat × Option Nat × List Event :=
  match doExec env dv with
  | (Except.error e, te) => (Except.error e, some c, some k, t0 ++ te)
  | (Except.ok _, te) =>
      if has_return then
        match doFetch env with
        | (Except.error e, tf) => (Except.error e, some c, some k, t0 ++ te ++ tf)
        | (Except.ok _, tf) =>
            let r := if !close_cursor && !close_conn then
                AtomicResult.rowsQuad env.rows env.cols c k
              else AtomicResult.rowsPair env.rows env.cols
            (Except.ok r, some c, some k, t0 ++ te ++ tf)
      else
        let r := if !close_cursor && !close_conn then
            AtomicResult.successTriple c k
          else AtomicResult.success
        (Except.ok r, some c, some k, t0 ++ te)

/-- The `try` block (lines 147–171): when either `conn` or `cursor` is
`None`, both are (re)bound from `create_cursor()`; if that call raises, the
locals keep their previous values.  Returns the try outcome together with
the final values of the `conn` and `cursor` locals and the trace. -/
def atomicTry (env : DbEnv) (dv : PyVal)
    (has_return close_cursor close_conn : Bool) (conn0 cursor0 : Option Nat) :
    Except Exc AtomicResult × Option Nat × Option Nat × List Event :=
  match conn0, cursor0 with
  | some c, some k =>
      atomicTryExec env dv has_return close_cursor close_conn c k []
  | some c, Option.none =>
      match create_cursor env 3 5 with
      | (Except.ok (c2, k2), t) =>
          atomicTryExec env dv has_return close_cursor close_conn c2 k2 t
      | (Except.error e, t) => (Except.error e, some c, Option.none, t)
  | Option.none, k0 =>
      match create_cursor env 3 5 with
      | (Except.ok (c2, k2), t) =>
          atomicTryExec env dv has_return close_cursor close_conn c2 k2 t
      | (Except.error e, t) => (Except.error e, Option.none, k0, t)

/-- The `except` clause (lines 173–177): `conn.rollback()`, log, `raise e`.
When the `conn` local is still `None`, `conn.rollback()` itself raises an
`AttributeError` which replaces `e` and nothing is logged. -/
def atomicExcept (conn0 : Option Nat) (e : Exc) : Exc × List Event :=
  match conn0 with
  | Option.none =>
      (Exc.attributeError "NoneType object has no attribute rollback", [])
  | some c => (e, [Event.rollback c, Event.logError])

/-- The close statements at the end of the `finally` block (lines 186–189):
cursor closed iff `close_cursor` and the local is not `None`; connection
symmetrically. -/
def closeEvents (close_cursor close_conn : Bool) (conn0 cursor0 : Option Nat) :
    List Event :=
  (match close_cursor, cursor0 with
   | true, some k => [Event.closeCursor k]
   | _, _ => []) ++
  (match close_conn, conn0 with
   | true, some c => [Event.closeConn c]
   | _, _ => [])

/-- The `finally` block (lines 179–189): when `needs_commit`,
`conn.commit()` runs first (an `AttributeError` when the `conn` local is
`None`); an exception raised here skips the close statements and replaces
any in-flight exception. -/
def atomicFinally (env : DbEnv) (needs_commit close_cursor close_conn : Bool)
    (conn0 cursor0 : Option Nat) : Option Exc × List Event :=
  if needs_commit then
    match conn0 with
    | Option.none =>
        (some (Exc.attributeError "NoneType object has no attribute commit"), [])
    | some c =>
        match doCommit env c with
        | (Except.error e, tc) => (some e, tc)
        | (Except.ok _, tc) =>
            (none, tc ++ closeEvents close_cursor close_conn conn0 cursor0)
  else (none, closeEvents close_cursor close_conn conn0 cursor0)

/-- `perform_atomic_db_operation` (lines 134–189): `try` body, `except`
handler on failure, then the `finally` block on every path; an exception
raised inside `finally` replaces the in-flight one. -/
def perform_atomic_db_operation (env : DbEnv) (dv : PyVal)
    (has_return close_cursor close_conn needs_commit : Bool)
    (conn0 cursor0 : Option Nat) : Except Exc AtomicResult × List Event :=
  match atomicTry env dv has_return close_cursor close_conn conn0 cursor0 with
  | (Except.ok r, cA, kA, t1) =>
      match atomicFinally env needs_commit close_cursor close_conn cA kA with
      | (none, t2) => (Except.ok r, t1 ++ t2)
      | (some ef, t2) => (Except.error ef, t1 ++ t2)
  | (Except.error e, cA, kA, t1) =>
      let h := atomicExcept cA e
      match atomicFinally env needs_commit close_cursor close_conn cA kA with
      | (none, t2) => (Except.error h.1, t1 ++ h.2 ++ t2)
      | (some ef, t2) => (Except.error ef, t1 ++ h.2 ++ t2)

/-! ### Trace counters -/

def countEvent (t : List Event) (e : Event) : Nat :=
  t.countP (fun x => x == e)

def countAttempts (t : List Event) : Nat :=
  t.countP (fun x => match x with | Event.connectAttempt _ => true | _ => false)

def countTokenRequests (t : List Event) : Nat :=
  countEvent t Event.tokenRequest

def countSleeps (t : List Event) (d : Nat) : Nat :=
  countEvent t (Event.sleep d)

def countCloseConn (t : List Event) (c : Nat) : Nat :=
  countEvent t (Event.closeConn c)

def countCloseCursor (t : List Event) (k : Nat) : Nat :=
  countEvent t (Event.closeCursor k)

/-- Classification the retry loop applies:
`"Login timeout expired" in str(e)`. -/
def ConnOutcome.isTimeout : ConnOutcome → Bool
  | ConnOutcome.fail true _ => true
  | _ => false

/-! ### Concrete oracle environments, used to instantiate the theorems -/

/-- Environment in which every external call succeeds on the first try. -/
def envAllOk : DbEnv :=
  ⟨"srv", "db", [104, 105], true, fun _ => ConnOutcome.ok, 0, 1,
    Except.ok (), Except.ok (), Except.ok (), [[1, 2]], ["a", "b"]⟩

/-- Environment in which query execution fails with message "boom". -/
def envExecFail : DbEnv :=
  ⟨"srv", "db", [], true, fun _ => ConnOutcome.ok, 0, 1,
    Except.error "boom", Except.ok (), Except.ok (), [], []⟩

/-- Environment in which the fetch fails with message "fetch boom". -/
def envFetchFail : DbEnv :=
  ⟨"srv", "db", [], true, fun _ => ConnOutcome.ok, 0, 1,
    Except.ok (), Except.error "fetch boom", Except.ok (), [], []⟩

/-- Environment in which every connect attempt is a login timeout. -/
def envTimeoutAlways : DbEnv :=
  ⟨"srv", "db", [], true, fun _ => ConnOutcome.fail true "Login timeout expired",
    0, 1, Except.ok (), Except.ok (), Except.ok (), [], []⟩

/-- Environment in which attempt 0 is a login timeout and attempt 1 succeeds. -/
def envSecondTry : DbEnv :=
  ⟨"srv", "db", [], true,
    fun i => if i = 0 then ConnOutcome.fail true "Login timeout expired"
      else ConnOutcome.ok,
    0, 1, Except.ok (), Except.ok (), Except.ok (), [], []⟩

/-- Environment in which attempt 0 fails with a non-timeout operational
error. -/
def envNonTimeout : DbEnv :=
  ⟨"srv", "db", [], true, fun _ => ConnOutcome.fail false "syntax error",
    0, 1, Except.ok (), Except.ok (), Except.ok (), [], []⟩

/-- Environment in which the identity-provider call fails. -/
def envTokenFail : DbEnv :=
  ⟨"srv", "db", [], false, fun _ => ConnOutcome.ok, 0, 1,
    Except.ok (), Except.ok (), Except.ok (), [], []⟩

/-! ### C2 — transactional executor failure path -/

/-- C2.  In `perform_atomic_db_operation`, an exception raised during query
execution triggers `conn.rollback()`, is logged, and is re-raised to the
caller; when `needs_commit` is true, `conn.commit()` additionally runs in the
cleanup phase — after the rollback on this failure path — and cursor and
connection are closed according to the `close_cursor`/`close_conn` flags,
in that order, after the commit. -/
theorem c2_atomic_failure_rollback_commit_close :
    (∀ (env : DbEnv) (dv : PyVal) (hr cc ccn nc : Bool) (c k : Nat)
      (m : String),
      env.execOutcome = Except.error m →
      env.commitOutcome = Except.ok () →
      perform_atomic_db_operation env dv hr cc ccn nc (some c) (some k) =
        (Except.error (Exc.queryError m),
          execEvent dv :: Event.rollback c :: Event.logError ::
            ((if nc then [Event.commit c] else []) ++
              (if cc then [Event.closeCursor k] else []) ++
              (if ccn then [Event.closeConn c] else [])))) ∧
    (∀ (env : DbEnv) (dv : PyVal) (cc ccn nc : Bool) (c k : Nat) (m : String),
      env.execOutcome = Except.ok () →
      env.fetchOutcome = Except.error m →
      env.commitOutcome = Except.ok () →
      perform_atomic_db_operation env dv true cc ccn nc (some c) (some k) =
        (Except.error (Exc.queryError m),
          execEvent dv :: Event.fetch :: Event.rollback c :: Event.logError ::
            ((if nc then [Event.commit c] else []) ++
              (if cc then [Event.closeCursor k] else []) ++
              (if ccn then [Event.closeConn c] else [])))) := by
  constructor
  · intro env dv hr cc ccn nc c k m hexec hcommit
    cases nc <;> cases cc <;> cases ccn <;>
      simp [perform_atomic_db_operation, atomicTry, atomicTryExec, doExec,
        hexec, atomicExcept, atomicFinally, doCommit, hcommit, closeEvents]
  · intro env dv cc ccn nc c k m hexec hfetch hcommit
    cases nc <;> cases cc <;> cases ccn <;>
      simp [perform_atomic_db_operation, atomicTry, atomicTryExec, doExec,
        hexec, doFetch, hfetch, atomicExcept, atomicFinally, doCommit,
        hcommit, closeEvents]

/-- Witness for C2: execution fails with "boom" on connection 7 / cursor 8,
all flags true. -/
theorem c2_atomic_failure_witness :
    (envExecFail.execOutcome = Except.error "boom" ∧
      envExecFail.commitOutcome = Except.ok () ∧
      perform_atomic_db_operation envExecFail PyVal.none false true true true
          (some 7) (some 8) =
        (Except.error (Exc.queryError "boom"),
          [Event.executeNoParams, Event.rollback 7, Event.logError,
            Event.commit 7, Event.closeCursor 8, Event.closeConn 7])) ∧
    (envFetchFail.execOutcome = Except.ok () ∧
      envFetchFail.fetchOutcome = Except.error "fetch boom" ∧
      envFetchFail.commitOutcome = Except.ok () ∧
      perform_atomic_db_operation envFetchFail PyVal.none true true true true
          (some 7) (some 8) =
        (Except.error (Exc.queryError "fetch boom"),
          [Event.executeNoParams, Event.fetch, Event.rollback 7,
            Event.logError, Event.commit 7, Event.closeCursor 8,
            Event.closeConn 7])) :=
  ⟨⟨rfl, rfl, by
      simpa using c2_atomic_failure_rollback_commit_close.1 envExecFail
        PyVal.none false true true true 7 8 "boom" rfl rfl⟩,
    ⟨rfl, rfl, rfl, by
      simpa using c2_atomic_failure_rollback_commit_close.2 envFetchFail
        PyVal.none true true true 7 8 "fetch boom" rfl rfl rfl⟩⟩

/-! ### C5 — transactional executor success shapes -/

/-- C5.  On the success path, `perform_atomic_db_operation` returns one of
exactly four shapes selected by `has_return` crossed with whether both close
flags are false: `(rows, column_names)` / `(rows, column_names, conn,
cursor)` when `has_return`, the literal "Success" / `("Success", conn,
cursor)` otherwise, where `conn` and `cursor` are the handles used for
execution. -/
theorem c5_atomic_return_shapes
    (env : DbEnv) (dv : PyVal) (hr cc ccn nc : Bool) (c k : Nat)
    (hexec : env.execOutcome = Except.ok ())
    (hfetch : env.fetchOutcome = Except.ok ())
    (hcommit : env.commitOutcome = Except.ok ()) :
    (perform_atomic_db_operation env dv hr cc ccn nc (some c) (some k)).1 =
      Except.ok
        (if hr then
          if !cc && !ccn then AtomicResult.rowsQuad env.rows env.cols c k
          else AtomicResult.rowsPair env.rows env.cols
        else
          if !cc && !ccn then AtomicResult.successTriple c k
          else AtomicResult.success) := by
  cases hr <;> cases cc <;> cases ccn <;> cases nc <;>
    simp [perform_atomic_db_operation, atomicTry, atomicTryExec, doExec, hexec,
      doFetch, hfetch, atomicFinally, doCommit, hcommit, closeEvents]

/-- Witness for C5: `has_return = true`, both close flags false, on
connection 7 / cursor 8 — the four-element shape with the same handles. -/
theorem c5_atomic_return_shapes_witness :
    envAllOk.execOutcome = Except.ok () ∧
    envAllOk.fetchOutcome = Except.ok () ∧
    envAllOk.commitOutcome = Except.ok () ∧
    (perform_atomic_db_operation envAllOk PyVal.none true false false true
        (some 7) (some 8)).1 =
      Except.ok (AtomicResult.rowsQuad envAllOk.rows envAllOk.cols 7 8) :=
  ⟨rfl, rfl, rfl, by
    simpa using c5_atomic_return_shapes envAllOk PyVal.none true false false
      true 7 8 rfl rfl rfl⟩

/-! ### C4 — retry policy of `create_cursor` -/

theorem attemptLoop_allTimeout (env : DbEnv) (d : Nat)
    (h : ∀ j, (env.connOutcome j).isTimeout = true) :
    ∀ n i,
      (attemptLoop env d n i).1 =
          Except.error (Exc.opError false "Maximum retry attempts reached") ∧
        countAttempts (attemptLoop env d n i).2 = n ∧
        countSleeps (attemptLoop env d n i).2 d = n := by
  intro n
  induction n with
  | zero => intro i; refine ⟨rfl, rfl, rfl⟩
  | succ n ih =>
    intro i
    have hi := h i
    cases hc : env.connOutcome i with
    | ok => rw [hc] at hi; simp [ConnOutcome.isTimeout] at hi
    | fail tm m =>
      cases tm with
      | false => rw [hc] at hi; simp [ConnOutcome.isTimeout] at hi
      | true =>
        have := ih (i + 1)
        simp [attemptLoop, hc, countAttempts, countSleeps, countEvent,
          List.countP_cons] at *
        exact ⟨this.1, this.2.1, this.2.2⟩

theorem attemptLoop_succeedsAt (env : DbEnv) (d : Nat) :
    ∀ j n i, (∀ l, l < j → (env.connOutcome (i + l)).isTimeout = true) →
      env.connOutcome (i + j) = ConnOutcome.ok → j < n →
      (attemptLoop env d n i).1 = Except.ok (env.freshConn, env.freshCursor) ∧
        countAttempts (attemptLoop env d n i).2 = j + 1 ∧
        countSleeps (attemptLoop env d n i).2 d = j := by
  intro j
  induction j with
  | zero =>
    intro n i _ hok hn
    cases n with
    | zero => omega
    | succ n =>
      simp only [Nat.add_zero] at hok
      simp [attemptLoop, hok, countAttempts, countSleeps, countEvent,
        List.countP_cons]
  | succ j ih =>
    intro n i hpre hok hn
    cases n with
    | zero => omega
    | succ n =>
      have h0 : (env.connOutcome i).isTimeout = true := by
        simpa using hpre 0 (Nat.succ_pos j)
      cases hc : env.connOutcome i with
      | ok => rw [hc] at h0; simp [ConnOutcome.isTimeout] at h0
      | fail tm m =>
        cases tm with
        | false => rw [hc] at h0; simp [ConnOutcome.isTimeout] at h0
        | true =>
          have hpre2 : ∀ l, l < j → (env.connOutcome (i + 1 + l)).isTimeout = true := by
            intro l hl
            have := hpre (l + 1) (by omega)
            have harith : i + (l + 1) = i + 1 + l := by omega
            rwa [harith] at this
          have hok2 : env.connOutcome (i + 1 + j) = ConnOutcome.ok := by
            have harith : i + (j + 1) = i + 1 + j := by omega
            rwa [harith] at hok
          have := ih n (i + 1) hpre2 hok2 (by omega)
          simp [attemptLoop, hc, countAttempts, countSleeps, countEvent,
            List.countP_cons] at *
          exact ⟨this.1, this.2.1, this.2.2⟩

/-- C4.  Retry policy of `create_cursor`: (a) with every attempt failing as a
login timeout, exactly `max_retries` attempts are made, each followed by a
`delay`-second sleep, and a terminal `OperationalError("Maximum retry
attempts reached")` is raised; (b) with attempts `0..j-1` timing out and
attempt `j < max_retries` succeeding, the open connection and cursor are
returned after exactly `j+1` attempts and `j` sleeps; (c) a non-timeout
operational error on the first attempt is re-raised immediately after
exactly one attempt and no sleep. -/
theorem c4_create_cursor_retry_policy :
    (∀ (env : DbEnv) (mr d : Nat), env.tokenOk = true →
      (∀ j, (env.connOutcome j).isTimeout = true) →
      (create_cursor env mr d).1 =
          Except.error (Exc.opError false "Maximum retry attempts reached") ∧
        countAttempts (create_cursor env mr d).2 = mr ∧
        countSleeps (create_cursor env mr d).2 d = mr) ∧
    (∀ (env : DbEnv) (mr d j : Nat), env.tokenOk = true →
      (∀ l, l < j → (env.connOutcome l).isTimeout = true) →
      env.connOutcome j = ConnOutcome.ok → j < mr →
      (create_cursor env mr d).1 = Except.ok (env.freshConn, env.freshCursor) ∧
        countAttempts (create_cursor env mr d).2 = j + 1 ∧
        countSleeps (create_cursor env mr d).2 d = j) ∧
    (∀ (env : DbEnv) (mr d : Nat) (m : String), env.tokenOk = true →
      env.connOutcome 0 = ConnOutcome.fail false m → 1 ≤ mr →
      (create_cursor env mr d).1 = Except.error (Exc.opError false m) ∧
        countAttempts (create_cursor env mr d).2 = 1 ∧
        countSleeps (create_cursor env mr d).2 d = 0) := by
  refine ⟨?_, ?_, ?_⟩
  · intro env mr d htok hto
    have := attemptLoop_allTimeout env d hto mr 0
    simp [create_cursor, config_sql, htok, countAttempts, countSleeps,
      countEvent, List.countP_cons, List.countP_append] at *
    exact ⟨this.1, this.2.1, this.2.2⟩
  · intro env mr d j htok hpre hok hj
    have := attemptLoop_succeedsAt env d j mr 0 (by simpa using hpre)
      (by simpa using hok) hj
    simp [create_cursor, config_sql, htok, countAttempts, countSleeps,
      countEvent, List.countP_cons, List.countP_append] at *
    exact ⟨this.1, this.2.1, this.2.2⟩
  · intro env mr d m htok h0 hmr
    cases mr with
    | zero => omega
    | succ mr =>
      simp [create_cursor, config_sql, htok, attemptLoop, h0, countAttempts,
        countSleeps, countEvent, List.countP_cons, List.countP_append]

/-- Witness for C4 at `max_retries = 3, delay = 5`: all-timeout environment,
success on attempt 1 (0-indexed), and a non-timeout failure on attempt 0. -/
theorem c4_create_cursor_retry_policy_witness :
    (envTimeoutAlways.tokenOk = true ∧
      (∀ j, (envTimeoutAlways.connOutcome j).isTimeout = true) ∧
      (create_cursor envTimeoutAlways 3 5).1 =
          Except.error (Exc.opError false "Maximum retry attempts reached") ∧
        countAttempts (create_cursor envTimeoutAlways 3 5).2 = 3 ∧
        countSleeps (create_cursor envTimeoutAlways 3 5).2 5 = 3) ∧
    (envSecondTry.tokenOk = true ∧
      (∀ l, l < 1 → (envSecondTry.connOutcome l).isTimeout = true) ∧
      envSecondTry.connOutcome 1 = ConnOutcome.ok ∧ 1 < 3 ∧
      (create_cursor envSecondTry 3 5).1 =
          Except.ok (envSecondTry.freshConn, envSecondTry.freshCursor) ∧
        countAttempts (create_cursor envSecondTry 3 5).2 = 2 ∧
        countSleeps (create_cursor envSecondTry 3 5).2 5 = 1) ∧
    (envNonTimeout.tokenOk = true ∧
      envNonTimeout.connOutcome 0 = ConnOutcome.fail false "syntax error" ∧
      1 ≤ 3 ∧
      (create_cursor envNonTimeout 3 5).1 =
          Except.error (Exc.opError false "syntax error") ∧
        countAttempts (create_cursor envNonTimeout 3 5).2 = 1 ∧
        countSleeps (create_cursor envNonTimeout 3 5).2 5 = 0) := by
  refine ⟨⟨rfl, fun j => rfl, ?_⟩, ⟨rfl, ?_, rfl, by omega, ?_⟩,
    ⟨rfl, rfl, by omega, ?_⟩⟩
  · exact c4_create_cursor_retry_policy.1 envTimeoutAlways 3 5 rfl fun j => rfl
  · intro l hl
    interval_cases l
    rfl
  · exact c4_create_cursor_retry_policy.2.1 envSecondTry 3 5 1 rfl
      (by intro l hl; interval_cases l; rfl) rfl (by omega)
  · exact c4_create_cursor_retry_policy.2.2 envNonTimeout 3 5 "syntax error"
      rfl rfl (by omega)

/-! ### C9 — token acquisition happens once per `create_cursor` call -/

theorem countTokenRequests_attemptLoop (env : DbEnv) (d : Nat) :
    ∀ n i, countTokenRequests (attemptLoop env d n i).2 = 0 := by
  intro n
  induction n with
  | zero => intro i; rfl
  | succ n ih =>
    intro i
    cases hc : env.connOutcome i with
    | ok => simp [attemptLoop, hc, countTokenRequests, countEvent]
    | fail tm m =>
      cases tm with
      | false => simp [attemptLoop, hc, countTokenRequests, countEvent]
      | true =>
        have := ih (i + 1)
        simp [attemptLoop, hc, countTokenRequests, countEvent,
          List.countP_cons] at *
        exact this

/-- C9 (amended).  `config_sql` — and with it the identity-provider token
request — runs exactly once per `create_cursor` call, before the first
connect attempt; the retry loop performs no further token requests, so all
attempts of one call reuse the same token. -/
theorem c9_token_requested_once (env : DbEnv) (mr d : Nat) :
    ∃ rest, (create_cursor env mr d).2 = Event.tokenRequest :: rest ∧
      countTokenRequests rest = 0 := by
  cases htok : env.tokenOk with
  | false =>
    refine ⟨[Event.logError], ?_, rfl⟩
    simp [create_cursor, config_sql, htok]
  | true =>
    refine ⟨(attemptLoop env d mr 0).2, ?_, countTokenRequests_attemptLoop env d mr 0⟩
    simp [create_cursor, config_sql, htok]

/-- Counterexample for C9 as stated: with attempt 0 timing out and attempt 1
succeeding, `create_cursor` makes 2 connect attempts but only 1 token
request — the second attempt reuses the token requested before the loop,
not a freshly requested one. -/
theorem c9_token_reuse_counterexample :
    countAttempts (create_cursor envSecondTry 3 5).2 = 2 ∧
    countTokenRequests (create_cursor envSecondTry 3 5).2 = 1 :=
  ⟨rfl, rfl⟩

/-! ### C10 — identity-provider failure propagates from `create_cursor` -/

/-- C10.  When the identity-provider call fails, `config_sql` catches and
logs the exception and returns `None` instead of a tuple, and
`create_cursor` then raises an unhandled `TypeError` to its caller while
unpacking the three-element tuple that was never returned, before any
connect attempt. -/
theorem c10_config_failure_propagates (env : DbEnv) (mr d : Nat)
    (h : env.tokenOk = false) :
    (config_sql env).1 = none ∧
    (config_sql env).2 = [Event.tokenRequest, Event.logError] ∧
    create_cursor env mr d =
      (Except.error (Exc.typeError "cannot unpack non-iterable NoneType object"),
        [Event.tokenRequest, Event.logError]) := by
  refine ⟨?_, ?_, ?_⟩ <;> simp [config_sql, create_cursor, h]

/-- Witness for C10 in the environment whose identity provider fails. -/
theorem c10_config_failure_witness :
    envTokenFail.tokenOk = false ∧
    ((config_sql envTokenFail).1 = none ∧
     (config_sql envTokenFail).2 = [Event.tokenRequest, Event.logError] ∧
     create_cursor envTokenFail 3 5 =
       (Except.error (Exc.typeError "cannot unpack non-iterable NoneType object"),
         [Event.tokenRequest, Event.logError])) :=
  ⟨rfl, c10_config_failure_propagates envTokenFail 3 5 rfl⟩

/-! ### C7 — commit policy of `perform_db_operation` -/

/-- C7.  On the success path of `perform_db_operation`: with `has_return`
true, `conn.commit()` runs iff `needs_commit` is true and runs after the
fetch, before the rows are returned; with `has_return` false, `conn.commit()`
runs unconditionally, whatever `needs_commit` is. -/
theorem c7_single_step_commit_policy (env : DbEnv) (dv : PyVal) (nc : Bool)
    (c k : Nat) (t0 : List Event)
    (hcc : create_cursor env 3 5 = (Except.ok (c, k), t0))
    (hE : env.execOutcome = Except.ok ())
    (hF : env.fetchOutcome = Except.ok ())
    (hM : env.commitOutcome = Except.ok ()) :
    perform_db_operation env dv true nc =
      (DbResult.dataPair env.rows env.cols,
        t0 ++ [execEvent dv, Event.fetch] ++
          (if nc then [Event.commit c] else []) ++
          [Event.closeCursor k, Event.closeConn c]) ∧
    perform_db_operation env dv false nc =
      (DbResult.successPair,
        t0 ++ [execEvent dv, Event.commit c, Event.closeCursor k,
          Event.closeConn c]) := by
  cases nc <;> constructor <;>
    simp [perform_db_operation, hcc, doExec, hE, doFetch, hF, doCommit, hM]

/-- Witness for C7 in the all-success environment (connection 0, cursor 1),
with `needs_commit = true`. -/
theorem c7_single_step_commit_policy_witness :
    create_cursor envAllOk 3 5 =
      (Except.ok (0, 1), [Event.tokenRequest, Event.connectAttempt 0]) ∧
    envAllOk.execOutcome = Except.ok () ∧
    envAllOk.fetchOutcome = Except.ok () ∧
    envAllOk.commitOutcome = Except.ok () ∧
    perform_db_operation envAllOk PyVal.none true true =
      (DbResult.dataPair envAllOk.rows envAllOk.cols,
        [Event.tokenRequest, Event.connectAttempt 0, Event.executeNoParams,
          Event.fetch, Event.commit 0, Event.closeCursor 1,
          Event.closeConn 0]) ∧
    perform_db_operation envAllOk PyVal.none false true =
      (DbResult.successPair,
        [Event.tokenRequest, Event.connectAttempt 0, Event.executeNoParams,
          Event.commit 0, Event.closeCursor 1, Event.closeConn 0]) :=
  ⟨rfl, rfl, rfl, rfl, by
    simpa [execEvent, dispatch, truthy] using
      c7_single_step_commit_policy envAllOk PyVal.none true 0 1
        [Event.tokenRequest, Event.connectAttempt 0] rfl rfl rfl rfl⟩

/-! ### C3 — the single-step executor never raises -/

/-- Success predicate for one `perform_db_operation` run: acquisition,
execution, and — per the flags — fetch and commit all succeed. -/
def singleStepOk (env : DbEnv) (hr nc : Bool) : Bool :=
  isOkE (create_cursor env 3 5).1 && isOkE env.execOutcome &&
    (if hr then
      isOkE env.fetchOutcome && (if nc then isOkE env.commitOutcome else true)
    else isOkE env.commitOutcome)

/-- C3.  `perform_db_operation` never propagates an exception (its embedded
result type carries no exception): when every step succeeds it returns the
`(rows, column_names)` pair or the literal success marker pair per
`has_return`; when any step fails it returns the error marker pair whose
second element carries the exception message. -/
theorem c3_single_step_never_raises (env : DbEnv) (dv : PyVal) (hr nc : Bool) :
    (singleStepOk env hr nc = true →
      (perform_db_operation env dv hr nc).1 =
        if hr then DbResult.dataPair env.rows env.cols
        else DbResult.successPair) ∧
    (singleStepOk env hr nc = false →
      ∃ m, (perform_db_operation env dv hr nc).1 =
        DbResult.errorPair ("Error performing query: " ++ m)) := by
  rcases hcc : create_cursor env 3 5 with ⟨res, t⟩
  cases res with
  | error e =>
    constructor
    · intro h
      exfalso
      simp [singleStepOk, hcc, isOkE] at h
    · intro _
      exact ⟨e.msg, by simp [perform_db_operation, hcc]⟩
  | ok ck =>
    obtain ⟨c, k⟩ := ck
    cases hE : env.execOutcome with
    | error m =>
      constructor
      · intro h
        exfalso
        simp [singleStepOk, hcc, isOkE, hE] at h
      · intro _
        refine ⟨m, ?_⟩
        cases hr <;> cases nc <;>
          simp [perform_db_operation, hcc, doExec, hE, Exc.msg]
    | ok u =>
      cases hr with
      | true =>
        cases hF : env.fetchOutcome with
        | error m =>
          constructor
          · intro h
            exfalso
            simp [singleStepOk, hcc, isOkE, hE, hF] at h
          · intro _
            exact ⟨m, by
              cases nc <;>
                simp [perform_db_operation, hcc, doExec, hE, doFetch, hF,
                  Exc.msg]⟩
        | ok u2 =>
          cases nc with
          | false =>
            constructor
            · intro _
              simp [perform_db_operation, hcc, doExec, hE, doFetch, hF]
            · intro h
              exfalso
              simp [singleStepOk, hcc, isOkE, hE, hF] at h
          | true =>
            cases hM : env.commitOutcome with
            | error m =>
              constructor
              · intro h
                exfalso
                simp [singleStepOk, hcc, isOkE, hE, hF, hM] at h
              · intro _
                exact ⟨m, by
                  simp [perform_db_operation, hcc, doExec, hE, doFetch, hF,
                    doCommit, hM, Exc.msg]⟩
            | ok u3 =>
              constructor
              · intro _
                simp [perform_db_operation, hcc, doExec, hE, doFetch, hF,
                  doCommit, hM]
              · intro h
                exfalso
                simp [singleStepOk, hcc, isOkE, hE, hF, hM] at h
      | false =>
        cases hM : env.commitOutcome with
        | error m =>
          constructor
          · intro h
            exfalso
            simp [singleStepOk, hcc, isOkE, hE, hM] at h
          · intro _
            exact ⟨m, by
              simp [perform_db_operation, hcc, doExec, hE, doCommit, hM,
                Exc.msg]⟩
        | ok u3 =>
          constructor
          · intro _
            simp [perform_db_operation, hcc, doExec, hE, doCommit, hM]
          · intro h
            exfalso
            simp [singleStepOk, hcc, isOkE, hE, hM] at h

/-- Witness for C3: the all-success environment yields the data pair; the
execution-failure environment yields the error marker pair, not an
exception. -/
theorem c3_single_step_never_raises_witness :
    (singleStepOk envAllOk true true = true ∧
      (perform_db_operation envAllOk PyVal.none true true).1 =
        if true then DbResult.dataPair envAllOk.rows envAllOk.cols
        else DbResult.successPair) ∧
    (singleStepOk envExecFail false false = false ∧
      ∃ m, (perform_db_operation envExecFail PyVal.none false false).1 =
        DbResult.errorPair ("Error performing query: " ++ m)) :=
  ⟨⟨rfl, (c3_single_step_never_raises envAllOk PyVal.none true true).1 rfl⟩,
    ⟨rfl, (c3_single_step_never_raises envExecFail PyVal.none false false).2 rfl⟩⟩

/-! ### C6 — the single-step executor always releases its resources -/

theorem attemptLoop_no_closes (env : DbEnv) (d x : Nat) :
    ∀ n i, countCloseConn (attemptLoop env d n i).2 x = 0 ∧
      countCloseCursor (attemptLoop env d n i).2 x = 0 := by
  intro n
  induction n with
  | zero => intro i; exact ⟨rfl, rfl⟩
  | succ n ih =>
    intro i
    cases hc : env.connOutcome i with
    | ok =>
      simp [attemptLoop, hc, countCloseConn, countCloseCursor, countEvent]
    | fail tm m =>
      cases tm with
      | false =>
        simp [attemptLoop, hc, countCloseConn, countCloseCursor, countEvent]
      | true =>
        have := ih (i + 1)
        simp [attemptLoop, hc, countCloseConn, countCloseCursor, countEvent,
          List.countP_cons] at *
        exact this

theorem create_cursor_no_closes (env : DbEnv) (mr d x : Nat) :
    countCloseConn (create_cursor env mr d).2 x = 0 ∧
    countCloseCursor (create_cursor env mr d).2 x = 0 := by
  cases htok : env.tokenOk with
  | false =>
    simp [create_cursor, config_sql, htok, countCloseConn, countCloseCursor,
      countEvent]
  | true =>
    have := attemptLoop_no_closes env d x mr 0
    simp [create_cursor, config_sql, htok, countCloseConn, countCloseCursor,
      countEvent, List.countP_append, List.countP_cons] at *
    exact this

theorem execEvent_ne_closeConn (dv : PyVal) (x : Nat) :
    execEvent dv ≠ Event.closeConn x := by
  cases hd : dispatch dv <;> simp [execEvent, hd]

theorem execEvent_ne_closeCursor (dv : PyVal) (x : Nat) :
    execEvent dv ≠ Event.closeCursor x := by
  cases hd : dispatch dv <;> simp [execEvent, hd]

/-- C6.  `perform_db_operation` releases the connection and cursor opened by
`create_cursor` exactly once on every exit path — success or failure of any
later step — and, when acquisition itself failed so that the locals were
never bound, the defensive existence check closes nothing and the executor
still returns its error marker normally instead of raising a new error. -/
theorem c6_connection_closed_exactly_once (env : DbEnv) (dv : PyVal)
    (hr nc : Bool) :
    (∀ c k, (create_cursor env 3 5).1 = Except.ok (c, k) →
      countCloseConn (perform_db_operation env dv hr nc).2 c = 1 ∧
      countCloseCursor (perform_db_operation env dv hr nc).2 k = 1) ∧
    ((∃ e, (create_cursor env 3 5).1 = Except.error e) →
      (∀ c, countCloseConn (perform_db_operation env dv hr nc).2 c = 0) ∧
      (∀ k, countCloseCursor (perform_db_operation env dv hr nc).2 k = 0) ∧
      ∃ m, (perform_db_operation env dv hr nc).1 = DbResult.errorPair m) := by
  rcases hcc : create_cursor env 3 5 with ⟨res, t⟩
  have htc : ∀ x, countCloseConn t x = 0 ∧ countCloseCursor t x = 0 := by
    intro x
    have h := create_cursor_no_closes env 3 5 x
    rw [hcc] at h
    exact h
  cases res with
  | error e =>
    constructor
    · intro c k h'
      simp at h'
    · intro _
      refine ⟨?_, ?_, ⟨"Error performing query: " ++ e.msg,
        by simp [perform_db_operation, hcc]⟩⟩
      · intro c
        have := (htc c).1
        simp [perform_db_operation, hcc, countCloseConn, countEvent,
          List.countP_append, List.countP_cons] at *
        exact this
      · intro k
        have := (htc k).2
        simp [perform_db_operation, hcc, countCloseCursor, countEvent,
          List.countP_append, List.countP_cons] at *
        exact this
  | ok ck =>
    obtain ⟨c, k⟩ := ck
    constructor
    · intro c' k' h'
      simp only [Except.ok.injEq, Prod.mk.injEq] at h'
      obtain ⟨hc', hk'⟩ := h'
      subst hc'
      subst hk'
      have h1 := (htc c).1
      have h2 := (htc k).2
      have h3 := execEvent_ne_closeConn dv c
      have h4 := execEvent_ne_closeCursor dv k
      simp only [countCloseConn, countCloseCursor, countEvent] at h1 h2 ⊢
      cases hE : env.execOutcome <;> cases hF : env.fetchOutcome <;>
        cases hM : env.commitOutcome <;> cases hr <;> cases nc <;>
        simp [perform_db_operation, hcc, doExec, doFetch, doCommit, hE, hF,
          hM, List.countP_append, List.countP_cons, beq_iff_eq, h1, h2, h3,
          h4]
    · intro he
      obtain ⟨e, he⟩ := he
      simp at he

/-- Witness for C6: the creation-succeeds part in the all-success
environment (connection 0, cursor 1), and the creation-fails part in the
identity-provider-failure environment. -/
theorem c6_connection_closed_exactly_once_witness :
    ((create_cursor envAllOk 3 5).1 = Except.ok (0, 1) ∧
      countCloseConn (perform_db_operation envAllOk PyVal.none true true).2 0 = 1 ∧
      countCloseCursor (perform_db_operation envAllOk PyVal.none true true).2 1 = 1) ∧
    ((∃ e, (create_cursor envTokenFail 3 5).1 = Except.error e) ∧
      (∀ c, countCloseConn (perform_db_operation envTokenFail PyVal.none true true).2 c = 0) ∧
      (∀ k, countCloseCursor (perform_db_operation envTokenFail PyVal.none true true).2 k = 0) ∧
      ∃ m, (perform_db_operation envTokenFail PyVal.none true true).1 =
        DbResult.errorPair m) :=
  ⟨⟨rfl, (c6_connection_closed_exactly_once envAllOk PyVal.none true true).1
      0 1 rfl⟩,
    ⟨⟨Exc.typeError "cannot unpack non-iterable NoneType object", rfl⟩,
      (c6_connection_closed_exactly_once envTokenFail PyVal.none true true).2
        ⟨Exc.typeError "cannot unpack non-iterable NoneType object", rfl⟩⟩⟩

/-! ### C8 — `data_values` dispatch in both executors -/

theorem execEvent_mem_perform_db (env : DbEnv) (dv : PyVal) (hr nc : Bool)
    (c k : Nat) (t0 : List Event)
    (hcc : create_cursor env 3 5 = (Except.ok (c, k), t0)) :
    execEvent dv ∈ (perform_db_operation env dv hr nc).2 := by
  cases hE : env.execOutcome <;> cases hF : env.fetchOutcome <;>
    cases hM : env.commitOutcome <;> cases hr <;> cases nc <;>
    simp [perform_db_operation, hcc, doExec, doFetch, doCommit, hE, hF, hM]

theorem execEvent_mem_perform_atomic (env : DbEnv) (dv : PyVal)
    (hr cc ccn nc : Bool) (c k : Nat) :
    execEvent dv ∈
      (perform_atomic_db_operation env dv hr cc ccn nc (some c) (some k)).2 := by
  cases hE : env.execOutcome <;> cases hF : env.fetchOutcome <;>
    cases hM : env.commitOutcome <;> cases hr <;> cases cc <;> cases ccn <;>
    cases nc <;>
    simp [perform_atomic_db_operation, atomicTry, atomicTryExec, atomicExcept,
      atomicFinally, doExec, doFetch, doCommit, closeEvents, hE, hF, hM]

/-- Counterexample for C8 as stated: `data_values = ((1,),)`, a tuple of
parameter tuples, is a "sequence of parameter tuples", yet the executor runs
single-row `cursor.execute`, not `cursor.executemany` — the code's batched
branch additionally requires `isinstance(data_values, list)`. -/
theorem c8_dispatch_counterexample :
    truthy (PyVal.tuple [PyVal.tuple [PyVal.int 1]]) = true ∧
    isSeqOfParamTuples (PyVal.tuple [PyVal.tuple [PyVal.int 1]]) = true ∧
    dispatchSpec (PyVal.tuple [PyVal.tuple [PyVal.int 1]]) = ExecKind.many ∧
    dispatch (PyVal.tuple [PyVal.tuple [PyVal.int 1]]) = ExecKind.single ∧
    Event.executeMany ∉
      (perform_db_operation envAllOk (PyVal.tuple [PyVal.tuple [PyVal.int 1]])
        false false).2 ∧
    Event.execute ∈
      (perform_db_operation envAllOk (PyVal.tuple [PyVal.tuple [PyVal.int 1]])
        false false).2 := by
  refine ⟨rfl, rfl, rfl, rfl, ?_, ?_⟩ <;> decide

/-- C8 (amended).  In both executors the dispatch on `data_values` is: a
truthy LIST whose elements are all tuples triggers batched
`cursor.executemany`; any other truthy value — including a tuple of tuples —
triggers single-row `cursor.execute` with the value; a falsy value (`None`,
empty list, empty tuple) executes the query with no parameters.  The
performed cursor call appears in both executors' traces. -/
theorem c8_dispatch_amended (env : DbEnv) (dv : PyVal)
    (hr nc cc ccn ncA : Bool) (c k : Nat) (t0 : List Event)
    (hcc : create_cursor env 3 5 = (Except.ok (c, k), t0)) :
    execEvent dv ∈ (perform_db_operation env dv hr nc).2 ∧
    execEvent dv ∈
      (perform_atomic_db_operation env dv hr cc ccn ncA (some c) (some k)).2 ∧
    (execEvent dv = Event.executeMany ↔
      truthy dv = true ∧ isListAllTuples dv = true) ∧
    (execEvent dv = Event.execute ↔
      truthy dv = true ∧ isListAllTuples dv = false) ∧
    (execEvent dv = Event.executeNoParams ↔ truthy dv = false) := by
  refine ⟨execEvent_mem_perform_db env dv hr nc c k t0 hcc,
    execEvent_mem_perform_atomic env dv hr cc ccn ncA c k, ?_, ?_, ?_⟩ <;>
    cases ht : truthy dv <;> cases hl : isListAllTuples dv <;>
      simp [execEvent, dispatch, ht, hl]

/-- Witness for C8 (amended) at `data_values = [(1,)]`, a list of tuples:
`executemany` is the performed call in both executors. -/
theorem c8_dispatch_amended_witness :
    create_cursor envAllOk 3 5 =
      (Except.ok (0, 1), [Event.tokenRequest, Event.connectAttempt 0]) ∧
    (Event.executeMany ∈
      (perform_db_operation envAllOk (PyVal.list [PyVal.tuple [PyVal.int 1]])
        true true).2 ∧
     Event.executeMany ∈
      (perform_atomic_db_operation envAllOk
        (PyVal.list [PyVal.tuple [PyVal.int 1]]) true true true true
        (some 0) (some 1)).2) :=
  ⟨rfl, by
    have h := c8_dispatch_amended envAllOk
      (PyVal.list [PyVal.tuple [PyVal.int 1]]) true true true true true 0 1
      [Event.tokenRequest, Event.connectAttempt 0] rfl
    have he : execEvent (PyVal.list [PyVal.tuple [PyVal.int 1]]) =
        Event.executeMany := rfl
    exact ⟨he ▸ h.1, he ▸ h.2.1⟩⟩

end AzSql
